import Mathlib

/-
Verification of the ComptePose exposure-timer firmware (troisiemetype/ComptePose).

The main program (v2.00, atmega328p board, first file of src/unnamed/part_000)
keeps the set exposure time in the global int8_t variables `minutes` and
`seconds`, the cached total in the int16_t `duration`, and drives a five-state
machine (SETTING, RUN, PAUSE, BEEPING, MENU) from two push buttons, a rotary
encoder and six software timers.  The embedding below translates the relevant
globals and functions.  The AVR target has 16-bit `int`; int8_t / int16_t /
uint8_t arithmetic is modelled on `Int` / `Nat` with explicit two's-complement
wraps.
-/

namespace ComptePose

/-- Signed 8-bit two's-complement wrap: the value of an int8_t after an
out-of-range assignment (gcc/AVR semantics). -/
def int8 (x : Int) : Int := (x + 128) % 256 - 128

/-- Signed 16-bit two's-complement wrap: the value of the AVR 16-bit `int`
after an overflowing operation (gcc/AVR semantics). -/
def int16 (x : Int) : Int := (x + 32768) % 65536 - 32768

/-- Unsigned 8-bit reduction: the value of a uint8_t after assignment. -/
def u8 (x : Int) : Nat := (x % 256).toNat

/-- Unsigned 32-bit reinterpretation of a (possibly negative) value, as done
by a cast to uint32_t. -/
def u32 (x : Int) : Nat := (x % 4294967296).toNat

/-- The time-accumulator globals: `minutes`, `seconds` (int8_t), the cached
total `duration` (int16_t), and the two registers of the clock display that
`clock.setMinutes` / `clock.setSeconds` write to. -/
structure Clk where
  minutes : Int
  seconds : Int
  duration : Int
  dispMin : Int
  dispSec : Int
deriving Repr, DecidableEq

/-- Source function `setMinutes(int8_t value)`: adds `value` to the `minutes`
global, clamps at 99 and 0 (returning false there, without a display write),
and otherwise writes the new minutes to the display and returns true. -/
def setMinutes (c : Clk) (value : Int) : Clk × Bool :=
  let m := int8 (c.minutes + value)
  if 99 ≤ m then ({ c with minutes := 99 }, false)
  else if m < 0 then ({ c with minutes := 0 }, false)
  else ({ c with minutes := m, dispMin := m }, true)

/-- Source function `setSeconds(int8_t value)`: adds `value` to the `seconds`
global (int8_t wrap), on overflow (`seconds >= 60`) carries one minute and
reduces mod 60, or pins seconds to 59 if the carry failed; on underflow
(`seconds < 0`) borrows one minute and adds 60, or pins seconds to 0 if the
borrow failed; finally writes seconds to the display. -/
def setSeconds (c : Clk) (value : Int) : Clk :=
  let s := int8 (c.seconds + value)
  let c' :=
    if 60 ≤ s then
      match setMinutes c 1 with
      | (c1, true) => { c1 with seconds := s % 60 }
      | (c1, false) => { c1 with seconds := 59 }
    else if s < 0 then
      match setMinutes c (-1) with
      | (c1, true) => { c1 with seconds := s + 60 }
      | (c1, false) => { c1 with seconds := 0 }
    else { c with seconds := s }
  { c' with dispSec := c'.seconds }

/-- Source function `setTime(int8_t value)` of the v1/v2 main program
(src/unnamed/part_000): scales the encoder step by 30/15/10/5/1 according to
the cached `duration` thresholds 600/300/120/30, applies it through
`setSeconds` (the scaled int is truncated back to the int8_t parameter),
then recomputes `duration = 60 * minutes + seconds`. -/
def setTime (c : Clk) (value : Int) : Clk :=
  let c' :=
    if 600 ≤ c.duration then setSeconds c (int8 (value * 30))
    else if 300 ≤ c.duration then setSeconds c (int8 (value * 15))
    else if 120 ≤ c.duration then setSeconds c (int8 (value * 10))
    else if 30 ≤ c.duration then setSeconds c (int8 (value * 5))
    else setSeconds c value
  { c' with duration := int16 (60 * c'.minutes + c'.seconds) }

/-- Source function `setTime(int8_t value)` of the early prototype
src/ComptePose.ino (lines 127-137): only three tiers, scaling by 15 above 300
total seconds and by 5 above 120, with no 600 or 30 threshold. -/
def setTimeIno (c : Clk) (value : Int) : Clk :=
  let c' :=
    if 300 ≤ c.duration then setSeconds c (int8 (value * 15))
    else if 120 ≤ c.duration then setSeconds c (int8 (value * 5))
    else setSeconds c value
  { c' with duration := int16 (60 * c'.minutes + c'.seconds) }

/-- The assignment part of `recallTime()` once a slot is confirmed: the two
EEPROM bytes are stored straight into the int8_t globals `minutes` and
`seconds` (a uint8_t to int8_t conversion, no clamping) and copied to the
display.  The cached `duration` is NOT recomputed. -/
def recallLoad (c : Clk) (b1 b2 : Nat) : Clk :=
  let m := int8 (b1 : Int)
  let s := int8 (b2 : Int)
  { c with minutes := m, seconds := s, dispMin := m, dispSec := s }

/-- The slot-index adjustment inside `storeTime()` / `recallTime()`:
`mem += encoder.getStep()` on a uint8_t, then `if (mem < 1) mem = 1;
if (mem > maxStore) mem = maxStore;` with maxStore = 64. -/
def memAdjust (mem : Nat) (step : Int) : Nat :=
  let m := u8 (mem + step)
  let m := if m < 1 then 1 else m
  if m > 64 then 64 else m

/-- The brightness adjustment inside `setBrightness()`:
`tempBrightness += encoder.getStep()` on a uint8_t, clamped to 1..16. -/
def brightAdjust (b : Nat) (step : Int) : Nat :=
  let t := u8 (b + step)
  let t := if t < 1 then 1 else t
  if t > 16 then 16 else t

/-- The bell-type adjustment inside `setBellType()`: on a positive step the
uint8_t is pre-incremented and clamped to maxType = 8, otherwise it is
decremented when still positive. -/
def typeAdjust (t : Nat) (step : Int) : Nat :=
  if 0 < step then
    let t' := u8 ((t : Int) + 1)
    if 8 < t' then 8 else t'
  else
    if 0 < t then t - 1 else t

/-- The bell-length adjustment inside `setBellLength()`: on a positive step
the uint8_t is pre-incremented and clamped to maxTime = 90, otherwise it is
decremented when still positive. -/
def lengthAdjust (l : Nat) (step : Int) : Nat :=
  if 0 < step then
    let l' := u8 ((l : Int) + 1)
    if 90 < l' then 90 else l'
  else
    if 0 < l then l - 1 else l

/-- The `delay1` (pulse period) table of `setBeepTimers(int8_t type)`. -/
def delay1Of (ty : Int) : Nat :=
  if ty = 0 then 100
  else if ty = 1 then 1000
  else if ty = 2 then 500
  else if ty = 3 then 100
  else if ty = 4 then 1000
  else if ty = 5 then 500
  else if ty = 6 then 2000
  else if ty = 7 then 1000
  else if ty = 8 then 500
  else 1000

/-- The `delay2` (pulse on-time) table of `setBeepTimers(int8_t type)`. -/
def delay2Of (ty : Int) : Nat :=
  if ty = 0 then 90
  else if ty = 1 then 500
  else if ty = 2 then 250
  else if ty = 3 then 50
  else if ty = 4 then 900
  else if ty = 5 then 450
  else if ty = 6 then 1500
  else if ty = 7 then 50
  else if ty = 8 then 40
  else 500

/-- Source function `setBeepTimers(int8_t type)`, returning
(delay1, bellLoops, timerBeep3 delay).  The source computes
`bellLoops = ((uint32_t)(bellLength * 1000) / delay1)`: on the atmega328p
`bellLength * 1000` is a 16-bit signed int multiplication that wraps BEFORE
the uint32_t cast; the quotient is then stored in the uint16_t `bellLoops`,
and `timerBeep3.setDelay(bellLoops * delay1)` is a 16-bit unsigned product. -/
def setBeepTimers (ty : Int) (bellLength : Nat) : Nat × Nat × Nat :=
  let delay1 := delay1Of ty
  let bellLoops := (u32 (int16 ((bellLength : Int) * 1000)) / delay1) % 65536
  (delay1, bellLoops, (bellLoops * delay1) % 65536)

/-- Bounds invariant of the stored exposure time: minutes in 0..99 and
seconds in 0..59. -/
def TimeInv (c : Clk) : Prop :=
  0 ≤ c.minutes ∧ c.minutes ≤ 99 ∧ 0 ≤ c.seconds ∧ c.seconds ≤ 59

instance (c : Clk) : Decidable (TimeInv c) := by
  unfold TimeInv; infer_instance

/-- Carry rule as worded by the spec: the scaled value is added to seconds;
leaving 0..59 carries into / borrows from minutes by one unit, and a field
saturates only when that carry would push minutes outside 0..99.  This is
the claimed behaviour, written down to compare against `setSeconds`. -/
def addSecondsSpec (m s v : Int) : Int × Int :=
  let t := s + v
  if 60 ≤ t then
    if m + 1 ≤ 99 then (m + 1, t % 60) else (99, 59)
  else if t < 0 then
    if 0 ≤ m - 1 then (m - 1, t + 60) else (0, 0)
  else (m, t)

/-- Multiplier table as worded by the spec (thresholds 600/300/120/30 with
factors 30/15/10/5/1). -/
def multOf (d : Int) : Int :=
  if 600 ≤ d then 30
  else if 300 ≤ d then 15
  else if 120 ≤ d then 10
  else if 30 ≤ d then 5
  else 1

/-- Multiplier table actually used by src/ComptePose.ino. -/
def multOfIno (d : Int) : Int :=
  if 300 ≤ d then 15
  else if 120 ≤ d then 5
  else 1

/-- A `setTime` parameterised by a multiplier table, used to compare the two
source variants against the claimed table. -/
def setTimeWith (f : Int → Int) (c : Clk) (value : Int) : Clk :=
  let c' := setSeconds c (int8 (value * f c.duration))
  { c' with duration := int16 (60 * c'.minutes + c'.seconds) }

/-- Modelled from the spec: the SoftTimer implementation of Timer.h is not
under src/ (only its callers are).  The spec data model gives the state
`{ startTick, delay, elapsedAtPause }` with the invariant that while Running
`elapsed = now - startTick + elapsedAtPause-at-resume`; `pause()` freezes
elapsed time by capturing `elapsedAtPause`, and transitioning back to
Running picks up the banked `elapsedAtPause`.  Ticks are the millisecond
counter, modelled on `Int`. -/
structure SoftTimer where
  running : Bool
  startTick : Int
  delay : Int
  elapsedAtPause : Int
deriving Repr, DecidableEq

/-- Modelled from the spec: `start()` begins counting from the current tick
with the configured delay and no banked elapsed time. -/
def SoftTimer.startAt (delay t0 : Int) : SoftTimer :=
  ⟨true, t0, delay, 0⟩

/-- Modelled from the spec: elapsed time of a SoftTimer at tick `now`. -/
def SoftTimer.elapsed (tm : SoftTimer) (now : Int) : Int :=
  if tm.running then now - tm.startTick + tm.elapsedAtPause else tm.elapsedAtPause

/-- Modelled from the spec: `pause()` banks the elapsed time at the pause
tick and stops advancing. -/
def SoftTimer.pauseAt (tm : SoftTimer) (p : Int) : SoftTimer :=
  { tm with running := false, elapsedAtPause := tm.elapsed p }

/-- Modelled from the spec: resuming re-enters Running at the resume tick,
keeping the banked `elapsedAtPause`. -/
def SoftTimer.resumeAt (tm : SoftTimer) (r : Int) : SoftTimer :=
  { tm with running := true, startTick := r }

/-- Modelled from the spec: `remaining()` is the configured delay minus the
elapsed time, a pure read. -/
def SoftTimer.remaining (tm : SoftTimer) (now : Int) : Int :=
  tm.delay - tm.elapsed now

/-- Apply a list of (pause tick, resume tick) cycles to a timer. -/
def runCycles (tm : SoftTimer) (cycles : List (Int × Int)) : SoftTimer :=
  cycles.foldl (fun t pr => (t.pauseAt pr.1).resumeAt pr.2) tm

/-- Total paused time of a list of (pause tick, resume tick) cycles. -/
def pausedTotal (cycles : List (Int × Int)) : Int :=
  cycles.foldl (fun a pr => a + (pr.2 - pr.1)) 0

-- ## The ExposureStateMachine (main program of the v2.00 board)

/-- The `state_t` enumeration of the main sketch. -/
inductive MState
| SETTING
| RUN
| PAUSE
| BEEPING
| MENU
deriving Repr, DecidableEq

/-- Condition of one software timer, as far as the state machine observes
it: stopped, running, or paused. -/
inductive TState
| stopped
| running
| paused
deriving Repr, DecidableEq

/-- The global state of the main program: machine state, the time/display
globals (`Clk`), the relay output (`out = true` means the OUT pin is driven
to its active level by `digitalWrite(OUT, LOW)`), the display enable and
dots flags, the shared blink flag `enable`, the tone generator, the six
software timers, and the bell configuration read from EEPROM. -/
structure Sys where
  st : MState
  clk : Clk
  out : Bool
  dispEnable : Bool
  dispDots : Bool
  blink : Bool
  toneOn : Bool
  timerMain : TState
  timerDots : TState
  timerPause : TState
  beep1 : TState
  beep2 : TState
  beep3 : TState
  bellLength : Nat
  bellLoops : Nat
deriving Repr, DecidableEq

/-- The observable events one pass of `loop()` can dispatch: a short or
long press of SW1 or SW2, expiry of the main countdown (inside `running()`),
expiries of the three beep timers (inside `beeping()`), the two blink timers
firing, an encoder step (inside `setting()`), and the menu-internal events
that end the modal menu loop (plain exit, or a confirmed recall loading two
EEPROM bytes).  Button presses during the modal menu loop are consumed by
that loop, so they reach `manageSW1`/`manageSW2` only outside MENU. -/
inductive Ev
| sw1Short
| sw1Long
| sw2Short
| sw2Long
| mainExpire
| beep1Fire
| beep2Fire
| beep3Expire
| dotsTick
| pauseTick
| encStep (v : Int)
| menuExit
| menuRecall (b1 b2 : Nat)
deriving Repr, DecidableEq

/-- Source function `stop()`: de-assert OUT, stop the main and dots timers,
re-enable the clock display, restore the dots, and rewrite the display with
the stored set time.  (In this board variant `stop()` does not touch
`state`.) -/
def stopFn (s : Sys) : Sys :=
  { s with out := false, timerMain := .stopped, timerDots := .stopped,
           dispEnable := true, dispDots := true,
           clk := { s.clk with dispMin := s.clk.minutes, dispSec := s.clk.seconds } }

/-- The BEEPING branch shared by `manageSW1` and `manageSW2`: stop the three
beep timers, silence the tone, and return to SETTING - without calling
`stop()`. -/
def cancelBeep (s : Sys) : Sys :=
  { s with beep1 := .stopped, beep2 := .stopped, beep3 := .stopped,
           toneOn := false, st := .SETTING }

/-- The SETTING branch of `manageSW1`: rewrite the display with the set
time, load the countdown, assert OUT, start the main and dots timers, and
enter RUN. -/
def launchRun (s : Sys) : Sys :=
  { s with st := .RUN,
           clk := { s.clk with dispMin := s.clk.minutes, dispSec := s.clk.seconds },
           out := true, timerMain := .running, timerDots := .running }

/-- One dispatch of the main `loop()` for one observable event, translated
from `manageSW1`, `manageSW2`, `running`, `beeping`, `pause`, `setting` and
`menuNaviguate` of the v2.00 sketch. -/
def step (s : Sys) (e : Ev) : Sys :=
  match e with
  | .sw1Short =>
    if s.st = .BEEPING then cancelBeep s
    else match s.st with
      | .SETTING => launchRun s
      | .RUN =>
        { s with timerMain := .paused, timerDots := .paused,
                 blink := false, dispEnable := false,
                 timerPause := .running, out := false, st := .PAUSE }
      | .PAUSE =>
        { s with timerMain := .running, timerDots := .running,
                 timerPause := .stopped, blink := true, out := true,
                 st := .RUN, dispEnable := true }
      | _ => s
  | .sw1Long =>
    if s.st = .BEEPING then cancelBeep s
    else if s.st = .MENU then s
    else { stopFn s with st := .SETTING }
  | .sw2Short =>
    if s.st = .BEEPING then cancelBeep s
    else if s.st = .SETTING then { s with st := .MENU }
    else s
  | .sw2Long =>
    if s.st = .BEEPING then cancelBeep s
    else if s.st = .RUN ∨ s.st = .PAUSE then { stopFn s with st := .SETTING }
    else s
  | .mainExpire =>
    if s.st = .RUN ∧ s.timerMain = .running then
      if 0 < s.bellLength then
        stopFn { s with beep1 := .running, beep2 := .running, beep3 := .running,
                        toneOn := true, st := .BEEPING }
      else
        stopFn { s with st := .SETTING }
    else s
  | .beep1Fire =>
    if s.st = .BEEPING ∧ s.beep1 = .running then
      { s with beep2 := .running, toneOn := true }
    else s
  | .beep2Fire =>
    if s.st = .BEEPING ∧ s.beep2 = .running then { s with toneOn := false }
    else s
  | .beep3Expire =>
    if s.st = .BEEPING ∧ s.beep3 = .running then
      stopFn { s with st := .SETTING, beep1 := .stopped, beep2 := .stopped,
                      beep3 := .stopped, toneOn := false }
    else s
  | .dotsTick =>
    if s.st = .RUN ∧ s.timerDots = .running then
      { s with blink := !s.blink, dispDots := !s.blink }
    else s
  | .pauseTick =>
    if s.st = .PAUSE ∧ s.timerPause = .running then
      { s with blink := !s.blink, dispEnable := !s.blink }
    else s
  | .encStep v =>
    if s.st = .SETTING then { s with clk := setTime s.clk (int8 v) } else s
  | .menuExit =>
    if s.st = .MENU then stopFn { s with st := .SETTING } else s
  | .menuRecall b1 b2 =>
    if s.st = .MENU then
      stopFn { s with st := .SETTING, clk := recallLoad s.clk b1 b2 }
    else s

/-- The state after `setup()`: SETTING, 0:00 on the display with the dots
set, OUT de-asserted (`digitalWrite(OUT, HIGH)`), all timers stopped, tone
off; the bell configuration comes from EEPROM. -/
def init (bellLength bellLoops : Nat) : Sys :=
  { st := .SETTING,
    clk := ⟨0, 0, 0, 0, 0⟩,
    out := false, dispEnable := true, dispDots := true, blink := false,
    toneOn := false,
    timerMain := .stopped, timerDots := .stopped, timerPause := .stopped,
    beep1 := .stopped, beep2 := .stopped, beep3 := .stopped,
    bellLength := bellLength, bellLoops := bellLoops }

/-- Run the machine over a list of events. -/
def runEvents (s : Sys) (evs : List Ev) : Sys :=
  evs.foldl step s

/-- A state is reachable when some event trace leads to it from `setup()`. -/
def Reachable (s : Sys) : Prop :=
  ∃ bl loops evs, runEvents (init bl loops) evs = s

/-- Whether a machine state is RUN. -/
def isRun : MState → Bool
| .RUN => true
| _ => false

/-- The inductive invariant: the relay output is asserted exactly in RUN,
and outside BEEPING the three beep timers are stopped and the tone is
silent. -/
def SysInv (s : Sys) : Prop :=
  s.out = isRun s.st
  ∧ (s.st ≠ .BEEPING →
      s.beep1 = .stopped ∧ s.beep2 = .stopped ∧ s.beep3 = .stopped ∧ s.toneOn = false)

-- ## Helper lemmas

theorem int8_range (x : Int) : -128 ≤ int8 x ∧ int8 x ≤ 127 := by
  unfold int8; omega

theorem int8_eq_self {x : Int} (h1 : -128 ≤ x) (h2 : x ≤ 127) : int8 x = x := by
  unfold int8; omega

theorem int16_eq_self {x : Int} (h1 : -32768 ≤ x) (h2 : x ≤ 32767) : int16 x = x := by
  unfold int16; omega

/-- Output ranges of `setSeconds` from any in-bounds state: minutes stays in
0..99 and seconds lands in -68..59 (it can go negative when the scaled value
underflows by more than one minute). -/
theorem setSeconds_output_range (c : Clk) (v : Int) (h : TimeInv c) :
    0 ≤ (setSeconds c v).minutes ∧ (setSeconds c v).minutes ≤ 99 ∧
    -68 ≤ (setSeconds c v).seconds ∧ (setSeconds c v).seconds ≤ 59 := by
  obtain ⟨hm0, hm1, hs0, hs1⟩ := h
  unfold setSeconds setMinutes
  have h8 := int8_range (c.seconds + v)
  have hm8 : int8 (c.minutes + 1) = c.minutes + 1 := int8_eq_self (by omega) (by omega)
  have hm8' : int8 (c.minutes + -1) = c.minutes + -1 := int8_eq_self (by omega) (by omega)
  rw [hm8, hm8']
  dsimp only
  split_ifs <;> simp_all <;> omega

/-- Preservation of the 0..99 / 0..59 invariant by `setSeconds` when the
scaled value stays within one minute (magnitude at most 60). -/
theorem setSeconds_TimeInv (c : Clk) (v : Int) (h : TimeInv c)
    (hv0 : -60 ≤ v) (hv1 : v ≤ 60) : TimeInv (setSeconds c v) := by
  obtain ⟨hm0, hm1, hs0, hs1⟩ := h
  unfold setSeconds setMinutes
  have hsv : int8 (c.seconds + v) = c.seconds + v := int8_eq_self (by omega) (by omega)
  have hm8 : int8 (c.minutes + 1) = c.minutes + 1 := int8_eq_self (by omega) (by omega)
  have hm8' : int8 (c.minutes + -1) = c.minutes + -1 := int8_eq_self (by omega) (by omega)
  rw [hsv, hm8, hm8']
  dsimp only
  split_ifs <;> simp_all [TimeInv] <;> omega

/-- A step of magnitude at most 2 produces a scaled value of magnitude at
most 60 in every tier of `setTime`, so the invariant is preserved. -/
theorem setTime_TimeInv (c : Clk) (v : Int) (h : TimeInv c)
    (hv0 : -2 ≤ v) (hv1 : v ≤ 2) : TimeInv (setTime c v) := by
  have inv30 : int8 (v * 30) = v * 30 := int8_eq_self (by omega) (by omega)
  have inv15 : int8 (v * 15) = v * 15 := int8_eq_self (by omega) (by omega)
  have inv10 : int8 (v * 10) = v * 10 := int8_eq_self (by omega) (by omega)
  have inv5 : int8 (v * 5) = v * 5 := int8_eq_self (by omega) (by omega)
  have core : TimeInv (if 600 ≤ c.duration then setSeconds c (int8 (v * 30))
      else if 300 ≤ c.duration then setSeconds c (int8 (v * 15))
      else if 120 ≤ c.duration then setSeconds c (int8 (v * 10))
      else if 30 ≤ c.duration then setSeconds c (int8 (v * 5))
      else setSeconds c v) := by
    split_ifs
    · rw [inv30]; exact setSeconds_TimeInv c (v * 30) h (by omega) (by omega)
    · rw [inv15]; exact setSeconds_TimeInv c (v * 15) h (by omega) (by omega)
    · rw [inv10]; exact setSeconds_TimeInv c (v * 10) h (by omega) (by omega)
    · rw [inv5]; exact setSeconds_TimeInv c (v * 5) h (by omega) (by omega)
    · exact setSeconds_TimeInv c v h (by omega) (by omega)
  unfold setTime
  simpa [TimeInv] using core

/-- The source `setTime` of the v1/v2 program agrees with the spec's
multiplier table: it is `setTimeWith multOf`. -/
theorem setTime_eq_table (c : Clk) (v : Int) (h0 : -128 ≤ v) (h1 : v ≤ 127) :
    setTime c v = setTimeWith multOf c v := by
  unfold setTime setTimeWith multOf
  have hv : int8 v = v := int8_eq_self h0 h1
  split_ifs <;> simp [hv]

/-- The prototype `setTime` of src/ComptePose.ino follows the three-tier
table 15/5/1 with thresholds 300/120 instead. -/
theorem setTimeIno_eq_table (c : Clk) (v : Int) (h0 : -128 ≤ v) (h1 : v ≤ 127) :
    setTimeIno c v = setTimeWith multOfIno c v := by
  unfold setTimeIno setTimeWith multOfIno
  have hv : int8 v = v := int8_eq_self h0 h1
  split_ifs <;> simp [hv]

/-- After `setTime`, the cache satisfies `duration = 60 * minutes + seconds`
of the new state (the int16_t store cannot wrap since the fields come out of
`setSeconds` bounded). -/
theorem setTime_duration (c : Clk) (v : Int) (h : TimeInv c) :
    (setTime c v).duration = 60 * (setTime c v).minutes + (setTime c v).seconds := by
  have core : ∀ w : Int,
      (60 * (setSeconds c w).minutes + (setSeconds c w).seconds : Int)
        = int16 (60 * (setSeconds c w).minutes + (setSeconds c w).seconds) := by
    intro w
    have hr := setSeconds_output_range c w h
    exact (int16_eq_self (by omega) (by omega)).symm
  unfold setTime
  split_ifs <;> simp <;> exact (core _).symm

/-- After `recallLoad` the cached `duration` is untouched: `recallTime()` in
the source never recomputes it. -/
theorem recallLoad_duration (c : Clk) (b1 b2 : Nat) :
    (recallLoad c b1 b2).duration = c.duration := by
  simp [recallLoad]

theorem pausedTotal_cons (p r : Int) (rest : List (Int × Int)) :
    pausedTotal ((p, r) :: rest) = (r - p) + pausedTotal rest := by
  unfold pausedTotal
  have step : ∀ (l : List (Int × Int)) (a b : Int),
      l.foldl (fun x pr => x + (pr.2 - pr.1)) (a + b)
        = b + l.foldl (fun x pr => x + (pr.2 - pr.1)) a := by
    intro l
    induction l with
    | nil => intro a b; simp [add_comm]
    | cons hd tl ih =>
      intro a b
      simp only [List.foldl_cons]
      rw [show a + b + (hd.2 - hd.1) = (a + (hd.2 - hd.1)) + b by ring, ih]
  simpa using step rest 0 (0 + (r - p))

/-- Elapsed time after any pause/resume cycles from a running timer: each
cycle subtracts exactly its paused interval, with no drift. -/
theorem elapsed_runCycles (cycles : List (Int × Int)) :
    ∀ (a e D : Int) (q : Int),
      (runCycles ⟨true, a, D, e⟩ cycles).elapsed q
        = e + (q - a) - pausedTotal cycles := by
  induction cycles with
  | nil =>
    intro a e D q
    simp [runCycles, pausedTotal, SoftTimer.elapsed]
    ring
  | cons hd tl ih =>
    intro a e D q
    obtain ⟨p, r⟩ := hd
    have h1 : runCycles ⟨true, a, D, e⟩ ((p, r) :: tl)
        = runCycles ⟨true, r, D, p - a + e⟩ tl := by
      simp [runCycles, SoftTimer.pauseAt, SoftTimer.resumeAt, SoftTimer.elapsed]
    rw [h1, ih, pausedTotal_cons]
    ring

theorem runCycles_delay (cycles : List (Int × Int)) :
    ∀ tm : SoftTimer, (runCycles tm cycles).delay = tm.delay := by
  induction cycles with
  | nil => intro tm; rfl
  | cons hd tl ih =>
    intro tm
    have := ih ((tm.pauseAt hd.1).resumeAt hd.2)
    simpa [runCycles, SoftTimer.pauseAt, SoftTimer.resumeAt] using this

theorem sysInv_init (bl loops : Nat) : SysInv (init bl loops) := by
  constructor <;> simp [init, isRun]

theorem sysInv_step (s : Sys) (e : Ev) (h : SysInv s) : SysInv (step s e) := by
  obtain ⟨ho, hb⟩ := h
  cases e <;> cases hs : s.st <;>
    simp_all [step, cancelBeep, stopFn, launchRun, isRun, SysInv] <;>
    split_ifs <;>
    simp_all

theorem sysInv_runEvents (evs : List Ev) (s : Sys) (h : SysInv s) :
    SysInv (runEvents s evs) := by
  induction evs generalizing s with
  | nil => exact h
  | cons e tl ih =>
    exact ih (step s e) (sysInv_step s e h)

theorem reachable_sysInv (s : Sys) (h : Reachable s) : SysInv s := by
  obtain ⟨bl, loops, evs, hrun⟩ := h
  rw [← hrun]
  exact sysInv_runEvents evs _ (sysInv_init bl loops)

-- ## Claim theorems

/-- Claim C1, counterexample: from the in-bounds state 10:00 (duration 600),
a single encoder step of -3 is scaled to -90 seconds; `setSeconds` borrows
only one minute and leaves `seconds = -30`, outside 0..59, refuting the
claimed invariant for unrestricted step sequences. -/
theorem C1_counterexample :
    TimeInv ⟨10, 0, 600, 10, 0⟩
    ∧ (setTime ⟨10, 0, 600, 10, 0⟩ (-3)).seconds = -30
    ∧ ¬ TimeInv (setTime ⟨10, 0, 600, 10, 0⟩ (-3)) := by
  decide

/-- Claim C1, amended: for every starting state with minutes in 0..99 and
seconds in 0..59 and every sequence of encoder steps of magnitude at most 2
(so that each scaled increment stays within one minute), `setTime` keeps
minutes in 0..99 and seconds in 0..59 after each application. -/
theorem C1_time_bounds (steps : List Int)
    (hsteps : ∀ v ∈ steps, -2 ≤ v ∧ v ≤ 2) :
    ∀ c : Clk, TimeInv c → TimeInv (steps.foldl setTime c) := by
  induction steps with
  | nil => intro c h; exact h
  | cons v tl ih =>
    intro c h
    have hv := hsteps v (by simp)
    have htl : ∀ w ∈ tl, -2 ≤ w ∧ w ≤ 2 := fun w hw => hsteps w (by simp [hw])
    simpa using ih htl (setTime c v) (setTime_TimeInv c v h hv.1 hv.2)

/-- Claim C1, witness: a concrete bounded step sequence from 0:00. -/
theorem C1_witness :
    (∀ v ∈ ([1, -1, 2, 2] : List Int), -2 ≤ v ∧ v ≤ 2)
    ∧ TimeInv (List.foldl setTime ⟨0, 0, 0, 0, 0⟩ [1, -1, 2, 2]) :=
  ⟨by decide, C1_time_bounds [1, -1, 2, 2] (by decide) ⟨0, 0, 0, 0, 0⟩ (by decide)⟩

/-- Claim C2, counterexample: from 98:59 a scaled value of +1 overflows the
seconds; the carry would take minutes to 99 which is still inside 0..99, so
by the claim nothing saturates and the result should be (99, 0) - as
`addSecondsSpec` computes - but the source clamps with `minutes >= 99` after
incrementing and pins the state to (99, 59). -/
theorem C2_counterexample :
    (setSeconds ⟨98, 59, 5939, 98, 59⟩ 1).minutes = 99
    ∧ (setSeconds ⟨98, 59, 5939, 98, 59⟩ 1).seconds = 59
    ∧ addSecondsSpec 98 59 1 = (99, 0) := by
  decide

/-- Claim C2, amended: on an in-bounds state and an addend that does not
wrap the int8_t sum, one `setSeconds` call carries or borrows exactly one
minute; inside 0..59 nothing changes shape; on overflow the seconds reduce
mod 60 with one carry while minutes is at most 97, and pin to (99, 59) as
soon as minutes is 98 or more (the source saturates when the carry would
make minutes REACH 99, not only when it would exceed it); on underflow the
seconds gain 60 with one borrow while minutes is at least 1, and pin to
(0, 0) from minutes = 0. -/
theorem C2_carry_borrow (c : Clk) (v : Int) (h : TimeInv c)
    (hv0 : -128 ≤ v) (hv1 : c.seconds + v ≤ 127) :
    (0 ≤ c.seconds + v → c.seconds + v ≤ 59 →
        (setSeconds c v).minutes = c.minutes ∧ (setSeconds c v).seconds = c.seconds + v)
    ∧ (60 ≤ c.seconds + v → c.minutes ≤ 97 →
        (setSeconds c v).minutes = c.minutes + 1
        ∧ (setSeconds c v).seconds = (c.seconds + v) % 60)
    ∧ (60 ≤ c.seconds + v → 98 ≤ c.minutes →
        (setSeconds c v).minutes = 99 ∧ (setSeconds c v).seconds = 59)
    ∧ (c.seconds + v < 0 → 1 ≤ c.minutes →
        (setSeconds c v).minutes = c.minutes - 1
        ∧ (setSeconds c v).seconds = c.seconds + v + 60)
    ∧ (c.seconds + v < 0 → c.minutes = 0 →
        (setSeconds c v).minutes = 0 ∧ (setSeconds c v).seconds = 0) := by
  obtain ⟨hm0, hm1, hs0, hs1⟩ := h
  unfold setSeconds setMinutes
  have hsv : int8 (c.seconds + v) = c.seconds + v := int8_eq_self (by omega) (by omega)
  have hm8 : int8 (c.minutes + 1) = c.minutes + 1 := int8_eq_self (by omega) (by omega)
  have hm8' : int8 (c.minutes + -1) = c.minutes + -1 := int8_eq_self (by omega) (by omega)
  rw [hsv, hm8, hm8']
  dsimp only
  split_ifs <;> simp_all <;> omega

/-- Claim C2, witness: an ordinary single carry from 5:30 with +40. -/
theorem C2_witness :
    (setSeconds ⟨5, 30, 330, 5, 30⟩ 40).minutes = 5 + 1
    ∧ (setSeconds ⟨5, 30, 330, 5, 30⟩ 40).seconds = (30 + 40) % 60 :=
  (C2_carry_borrow ⟨5, 30, 330, 5, 30⟩ 40 (by decide) (by decide)
    (by decide)).2.1 (by decide) (by decide)

/-- Claim C3: in every reachable state of the controller the relay output is
asserted exactly when the machine state is RUN; moreover the short press
transitions into RUN assert it, leaving RUN to PAUSE de-asserts it, and a
long press of either button from RUN or PAUSE always returns to SETTING
with the output de-asserted. -/
theorem C3_relay_iff_running :
    (∀ (bl loops : Nat) (evs : List Ev),
      (runEvents (init bl loops) evs).out = isRun (runEvents (init bl loops) evs).st)
    ∧ (∀ s : Sys, Reachable s → s.st = .RUN ∨ s.st = .PAUSE →
        (step s .sw1Long).st = .SETTING ∧ (step s .sw1Long).out = false
        ∧ (step s .sw2Long).st = .SETTING ∧ (step s .sw2Long).out = false)
    ∧ (∀ s : Sys, s.st = .SETTING →
        (step s .sw1Short).st = .RUN ∧ (step s .sw1Short).out = true)
    ∧ (∀ s : Sys, s.st = .PAUSE →
        (step s .sw1Short).st = .RUN ∧ (step s .sw1Short).out = true)
    ∧ (∀ s : Sys, s.st = .RUN →
        (step s .sw1Short).st = .PAUSE ∧ (step s .sw1Short).out = false) := by
  refine ⟨?_, ?_, ?_, ?_, ?_⟩
  · intro bl loops evs
    exact (sysInv_runEvents evs _ (sysInv_init bl loops)).1
  · intro s _ hrp
    rcases hrp with h | h <;> simp [step, h, stopFn]
  · intro s h; simp [step, h, launchRun]
  · intro s h; simp [step, h]
  · intro s h; simp [step, h]

/-- Claim C3, witness: after launching a countdown, a long press of either
button aborts back to SETTING with the output de-asserted. -/
theorem C3_witness :
    (step (runEvents (init 0 0) [Ev.sw1Short]) Ev.sw1Long).st = MState.SETTING
    ∧ (step (runEvents (init 0 0) [Ev.sw1Short]) Ev.sw1Long).out = false
    ∧ (step (runEvents (init 0 0) [Ev.sw1Short]) Ev.sw2Long).st = MState.SETTING
    ∧ (step (runEvents (init 0 0) [Ev.sw1Short]) Ev.sw2Long).out = false :=
  C3_relay_iff_running.2.1 (runEvents (init 0 0) [Ev.sw1Short])
    ⟨0, 0, [Ev.sw1Short], rfl⟩ (Or.inl (by decide))

/-- Claim C4: `setBeepTimers` should give `repeatCount =
floor(length*1000 / onDelay)` and a bound `repeatCount * onDelay` for every
length in 0..90; this holds for the documented instance type=1, length=5
(5 pulses, 5000 ms bound), but on the 16-bit AVR `int` the product
`bellLength * 1000` wraps before the uint32_t cast, so at type=1, length=90
the code derives 24 pulses and a 24000 ms bound instead of the intended 90
and 90000 (the cast placed outside the product shows the intent). -/
theorem C4_beep_derivation :
    setBeepTimers 1 5 = (1000, 5, 5000)
    ∧ setBeepTimers 1 90 = (1000, 24, 24000)
    ∧ 90 * 1000 / 1000 = (90 : Nat) := by
  decide

/-- Claim C5, counterexample: with 10:00 set (duration cache 600), recalling
the stored time 0:10 leaves `duration` at 600 although
`60 * minutes + seconds` is now 10; the next encoder step therefore still
selects the x30 multiplier and jumps the seconds from 10 to 40. -/
theorem C5_counterexample :
    (recallLoad ⟨10, 0, 600, 10, 0⟩ 0 10).duration = 600
    ∧ 60 * (recallLoad ⟨10, 0, 600, 10, 0⟩ 0 10).minutes
        + (recallLoad ⟨10, 0, 600, 10, 0⟩ 0 10).seconds = 10
    ∧ (recallLoad ⟨10, 0, 600, 10, 0⟩ 0 10).duration
        ≠ 60 * (recallLoad ⟨10, 0, 600, 10, 0⟩ 0 10).minutes
          + (recallLoad ⟨10, 0, 600, 10, 0⟩ 0 10).seconds
    ∧ (setTime (recallLoad ⟨10, 0, 600, 10, 0⟩ 0 10) 1).seconds = 40 := by
  decide

/-- Claim C5, amended: the cached total-seconds duration equals
`60 * minutes + seconds` after every encoder adjustment (`setTime`
recomputes it), but memory recall does NOT recompute it: after `recallTime`
the cache keeps its previous value until the next encoder step. -/
theorem C5_duration_recompute :
    (∀ (c : Clk) (v : Int), TimeInv c →
        (setTime c v).duration = 60 * (setTime c v).minutes + (setTime c v).seconds)
    ∧ (∀ (c : Clk) (b1 b2 : Nat), (recallLoad c b1 b2).duration = c.duration) :=
  ⟨fun c v h => setTime_duration c v h, fun c b1 b2 => recallLoad_duration c b1 b2⟩

/-- Claim C5, witness: the cache is exact after one encoder step from 0:00. -/
theorem C5_witness :
    (setTime ⟨0, 0, 0, 0, 0⟩ 1).duration
      = 60 * (setTime ⟨0, 0, 0, 0, 0⟩ 1).minutes + (setTime ⟨0, 0, 0, 0, 0⟩ 1).seconds :=
  C5_duration_recompute.1 ⟨0, 0, 0, 0, 0⟩ 1 (by decide)

/-- Claim C6, counterexample: at duration 600 the claimed table demands a
x30 multiplier, and the v1/v2 `setTime` indeed adds 30 seconds for one
detent; but the `setTime` of src/ComptePose.ino (also cited by the claim)
adds only 15 there. -/
theorem C6_counterexample :
    (setTimeIno ⟨10, 0, 600, 10, 0⟩ 1).seconds = 15
    ∧ multOf 600 = 30
    ∧ (setTime ⟨10, 0, 600, 10, 0⟩ 1).seconds = 30 := by
  decide

/-- Claim C6, amended: the v1/v2 program scales each step by the claimed
table (x30 from 600 total seconds, x15 from 300, x10 from 120, x5 from 30,
x1 below), while the ComptePose.ino prototype scales by x15 from 300, x5
from 120 and x1 below, with no x30 or x10 tier. -/
theorem C6_multiplier_tables (c : Clk) (v : Int) (h0 : -128 ≤ v) (h1 : v ≤ 127) :
    setTime c v = setTimeWith multOf c v
    ∧ setTimeIno c v = setTimeWith multOfIno c v :=
  ⟨setTime_eq_table c v h0 h1, setTimeIno_eq_table c v h0 h1⟩

/-- Claim C6, witness: both table equations at a concrete state and step. -/
theorem C6_witness :
    setTime ⟨0, 0, 0, 0, 0⟩ 1 = setTimeWith multOf ⟨0, 0, 0, 0, 0⟩ 1
    ∧ setTimeIno ⟨0, 0, 0, 0, 0⟩ 1 = setTimeWith multOfIno ⟨0, 0, 0, 0, 0⟩ 1 :=
  C6_multiplier_tables ⟨0, 0, 0, 0, 0⟩ 1 (by decide) (by decide)

/-- Claim C7: when the countdown expires in RUN, the machine enters BEEPING
exactly when the configured bell length is positive and otherwise returns
directly to SETTING; in both cases the output is de-asserted and the display
is restored (enabled, dots on, set time rewritten); with bell length 0 the
three alert timers stay stopped and the tone stays off, and with a positive
bell length they are started. -/
theorem C7_expiry_transition (s : Sys) (hr : Reachable s) (hst : s.st = .RUN)
    (htm : s.timerMain = .running) :
    (step s .mainExpire).st
      = (if 0 < s.bellLength then MState.BEEPING else MState.SETTING)
    ∧ (step s .mainExpire).out = false
    ∧ (step s .mainExpire).clk.dispMin = s.clk.minutes
    ∧ (step s .mainExpire).clk.dispSec = s.clk.seconds
    ∧ (step s .mainExpire).dispEnable = true
    ∧ (step s .mainExpire).dispDots = true
    ∧ (s.bellLength = 0 →
        (step s .mainExpire).beep1 = .stopped ∧ (step s .mainExpire).beep2 = .stopped
        ∧ (step s .mainExpire).beep3 = .stopped ∧ (step s .mainExpire).toneOn = false)
    ∧ (0 < s.bellLength →
        (step s .mainExpire).beep1 = .running ∧ (step s .mainExpire).beep2 = .running
        ∧ (step s .mainExpire).beep3 = .running ∧ (step s .mainExpire).toneOn = true) := by
  have hi := reachable_sysInv s hr
  have hbeeps := hi.2 (by simp [hst])
  by_cases hbl : 0 < s.bellLength
  · have h0 : s.bellLength ≠ 0 := by omega
    simp [step, hst, htm, stopFn, hbl, h0]
  · have h0 : s.bellLength = 0 := by omega
    simp [step, hst, htm, stopFn, hbl, h0, hbeeps.1, hbeeps.2.1, hbeeps.2.2.1,
      hbeeps.2.2.2]

/-- Claim C7, witness: expiry with bell length 0 returns straight to
SETTING with the output de-asserted and the display restored. -/
theorem C7_witness :
    (step (runEvents (init 0 0) [Ev.sw1Short]) Ev.mainExpire).st
      = (if 0 < (runEvents (init 0 0) [Ev.sw1Short]).bellLength
          then MState.BEEPING else MState.SETTING)
    ∧ (step (runEvents (init 0 0) [Ev.sw1Short]) Ev.mainExpire).out = false
    ∧ (step (runEvents (init 0 0) [Ev.sw1Short]) Ev.mainExpire).clk.dispMin
        = (runEvents (init 0 0) [Ev.sw1Short]).clk.minutes
    ∧ (step (runEvents (init 0 0) [Ev.sw1Short]) Ev.mainExpire).clk.dispSec
        = (runEvents (init 0 0) [Ev.sw1Short]).clk.seconds
    ∧ (step (runEvents (init 0 0) [Ev.sw1Short]) Ev.mainExpire).dispEnable = true
    ∧ (step (runEvents (init 0 0) [Ev.sw1Short]) Ev.mainExpire).dispDots = true
    ∧ ((runEvents (init 0 0) [Ev.sw1Short]).bellLength = 0 →
        (step (runEvents (init 0 0) [Ev.sw1Short]) Ev.mainExpire).beep1 = .stopped
        ∧ (step (runEvents (init 0 0) [Ev.sw1Short]) Ev.mainExpire).beep2 = .stopped
        ∧ (step (runEvents (init 0 0) [Ev.sw1Short]) Ev.mainExpire).beep3 = .stopped
        ∧ (step (runEvents (init 0 0) [Ev.sw1Short]) Ev.mainExpire).toneOn = false)
    ∧ (0 < (runEvents (init 0 0) [Ev.sw1Short]).bellLength →
        (step (runEvents (init 0 0) [Ev.sw1Short]) Ev.mainExpire).beep1 = .running
        ∧ (step (runEvents (init 0 0) [Ev.sw1Short]) Ev.mainExpire).beep2 = .running
        ∧ (step (runEvents (init 0 0) [Ev.sw1Short]) Ev.mainExpire).beep3 = .running
        ∧ (step (runEvents (init 0 0) [Ev.sw1Short]) Ev.mainExpire).toneOn = true) :=
  C7_expiry_transition (runEvents (init 0 0) [Ev.sw1Short])
    ⟨0, 0, [Ev.sw1Short], rfl⟩ (by decide) (by decide)

/-- Claim C8, counterexample: recalled durations are NOT clamped - reading a
slot whose bytes are 255 (a fresh EEPROM) loads minutes = seconds = -1 into
the int8_t globals, leaving the claimed 00:00..99:59 range. -/
theorem C8_counterexample :
    (recallLoad ⟨0, 0, 0, 0, 0⟩ 255 255).minutes = -1
    ∧ (recallLoad ⟨0, 0, 0, 0, 0⟩ 255 255).minutes < 0
    ∧ (recallLoad ⟨0, 0, 0, 0, 0⟩ 255 255).seconds < 0 := by
  decide

/-- Claim C8, amended: the encoder-driven edits clamp - slot indices land in
1..64, brightness in 1..16, alert type stays at most 8 and alert length at
most 90 from in-range values, and in-range durations stay in 00:00..99:59
for scaled steps within one minute - but values read back from the
persistent store are used unclamped. -/
theorem C8_clamping :
    (∀ (mem : Nat) (d : Int), 1 ≤ memAdjust mem d ∧ memAdjust mem d ≤ 64)
    ∧ (∀ (b : Nat) (d : Int), 1 ≤ brightAdjust b d ∧ brightAdjust b d ≤ 16)
    ∧ (∀ (t : Nat) (d : Int), t ≤ 8 → typeAdjust t d ≤ 8)
    ∧ (∀ (l : Nat) (d : Int), l ≤ 90 → lengthAdjust l d ≤ 90)
    ∧ (∀ (c : Clk) (v : Int), TimeInv c → -60 ≤ v → v ≤ 60 →
        TimeInv (setSeconds c v)) := by
  refine ⟨?_, ?_, ?_, ?_, ?_⟩
  · intro mem d; unfold memAdjust; dsimp only; split_ifs <;> omega
  · intro b d; unfold brightAdjust; dsimp only; split_ifs <;> omega
  · intro t d ht; unfold typeAdjust; dsimp only; split_ifs <;> omega
  · intro l d hl; unfold lengthAdjust; dsimp only; split_ifs <;> omega
  · intro c v h h0 h1; exact setSeconds_TimeInv c v h h0 h1

/-- Claim C8, witness: concrete clamp evaluations, including a slot
decrement below 1 (which wraps the uint8_t and is caught by the upper
clamp). -/
theorem C8_witness :
    (1 ≤ memAdjust 1 (-2) ∧ memAdjust 1 (-2) ≤ 64)
    ∧ (1 ≤ brightAdjust 16 1 ∧ brightAdjust 16 1 ≤ 16)
    ∧ typeAdjust 8 1 ≤ 8
    ∧ lengthAdjust 90 1 ≤ 90
    ∧ TimeInv (setSeconds ⟨0, 0, 0, 0, 0⟩ (-60)) :=
  ⟨C8_clamping.1 1 (-2), C8_clamping.2.1 16 1,
   C8_clamping.2.2.1 8 1 (by decide), C8_clamping.2.2.2.1 90 1 (by decide),
   C8_clamping.2.2.2.2 ⟨0, 0, 0, 0, 0⟩ (-60) (by decide) (by decide) (by decide)⟩

/-- Claim C9: pausing a running countdown and resuming, any number of times,
yields the same `remaining()` as if the paused intervals had never existed -
the elapsed accounting excludes exactly the paused time, with no drift.
(SoftTimer is modelled from the spec, Timer.h not being under src/.) -/
theorem C9_pause_resume_exact (D t0 : Int) (cycles : List (Int × Int)) (q : Int) :
    (runCycles (SoftTimer.startAt D t0) cycles).remaining q
      = (SoftTimer.startAt D t0).remaining (q - pausedTotal cycles) := by
  have h := elapsed_runCycles cycles t0 0 D q
  unfold SoftTimer.startAt at h ⊢
  unfold SoftTimer.remaining
  rw [h, runCycles_delay]
  simp [SoftTimer.elapsed]
  ring

/-- Claim C10: while BEEPING, a press of either button stops the three alert
timers, silences the tone and returns to SETTING, changing nothing else: the
set time, the display registers, the dots, the enable flag and the output
line are all left as they were (and the output was already de-asserted,
BEEPING not being RUN), because the `stop()` routine is not invoked on this
path. -/
theorem C10_beep_cancel (s : Sys) (e : Ev) (hr : Reachable s)
    (hst : s.st = .BEEPING)
    (he : e = .sw1Short ∨ e = .sw1Long ∨ e = .sw2Short ∨ e = .sw2Long) :
    step s e = { s with st := .SETTING, beep1 := .stopped, beep2 := .stopped,
                        beep3 := .stopped, toneOn := false }
    ∧ s.out = false := by
  have hout : s.out = false := by
    have := (reachable_sysInv s hr).1
    rw [hst] at this
    simpa [isRun] using this
  rcases he with h | h | h | h <;> subst h <;>
    exact ⟨by simp [step, hst, cancelBeep], hout⟩

/-- Claim C10, witness: cancelling a concrete reachable alert with SW1. -/
theorem C10_witness :
    step (runEvents (init 5 5) [Ev.sw1Short, Ev.mainExpire]) Ev.sw1Short
      = { runEvents (init 5 5) [Ev.sw1Short, Ev.mainExpire] with
          st := .SETTING, beep1 := .stopped, beep2 := .stopped,
          beep3 := .stopped, toneOn := false }
    ∧ (runEvents (init 5 5) [Ev.sw1Short, Ev.mainExpire]).out = false :=
  C10_beep_cancel (runEvents (init 5 5) [Ev.sw1Short, Ev.mainExpire]) Ev.sw1Short
    ⟨5, 5, [Ev.sw1Short, Ev.mainExpire], rfl⟩ (by decide) (Or.inl rfl)

end ComptePose
